import Mathlib

/-!
Shallow embedding of the dns-proxy repository (src/src/dns.py and
src/src/main.py), a UDP DNS forwarding proxy built on asyncio.

The per-query core consists of two coroutines on `DNSProxyProtocol`:

* `_forward_request(data)` (dns.py lines 119-154, textually identical in
  main.py): creates a fresh non-blocking UDP socket, connects it to the
  upstream resolver, sends the query bytes, awaits one reply datagram of at
  most 4096 bytes, closes the socket and returns the reply; on
  `TimeoutError` or any other exception it logs and returns `None`.

* `_process_dns_query(data, addr)` (dns.py lines 59-117): parses the
  inbound bytes with `DNSRecord.parse`, logs the request, awaits
  `_forward_request`, and if a truthy reply came back sends it verbatim to
  `addr` via the listening transport, re-parses the reply for logging,
  extracts the A-record addresses and, when both the list and the
  configured callback are non-empty, invokes the callback once; the whole
  body is wrapped in `try .. except Exception` which logs and swallows.

The embedding represents one handler invocation as a pure function of an
environment (the outcomes of the external collaborators: the dnslib codec,
the upstream resolver, the transport send, the callback) producing the
ordered list of observable events the invocation performs, together with
how it exits.  Machine behaviour that the claims depend on is modelled
explicitly: byte-string truthiness (`if response_data:` is false for both
`None` and `b""`), the 4096-byte datagram truncation of `sock_recv`, and
the fact that no timeout mechanism is configured on the upstream socket
operations.
-/

namespace DnsProxy

/-- Raw byte payloads are lists of byte values. -/
abbrev Bytes := List Nat

/-- A client address as received by `datagram_received`: `(IP string, port)`;
`addr[0]` in the source is the IP. -/
abbrev Addr := String × Nat

/-- The dnslib constant `QTYPE.A` used in `rr.rtype in (QTYPE.A,)`. -/
def qtypeA : Nat := 1

/-- The receive buffer size passed to `loop.sock_recv(sock, 4096)`
(dns.py line 143). -/
def recvBufSize : Nat := 4096

/-- One resource record of a parsed DNS message, as the handler reads it:
`rr.rtype` and `str(rr.rdata)` (the name is carried but never read). -/
structure RR where
  rtype : Nat
  rname : String
  rdata : String
deriving DecidableEq

/-- The fields of a `DNSRecord` that `_process_dns_query` reads:
`request.q.qname`, `request.q.qtype` and `response.rr`. -/
structure DNSMessage where
  qname : String
  qtype : Nat
  rr : List RR
deriving DecidableEq

/-- Behaviour of the upstream resolver and transport during one
`_forward_request` call: it either delivers one reply datagram, stays
silent forever, or one of the three awaited socket operations
(`sock_connect`, `sock_sendall`, `sock_recv`) raises a non-timeout
exception. -/
inductive UpstreamBehavior where
  | replies (resp : Bytes)
  | silent
  | connectError
  | sendError
  | recvError
deriving DecidableEq

/-- Which of the two `except` branches of `_forward_request` logged:
the `TimeoutError` branch (line 147) or the generic `Exception` branch
(line 152); `noError` when neither ran. -/
inductive ForwardLog where
  | noError
  | timeoutError
  | transportError
deriving DecidableEq

/-- Outcome of one `_forward_request` call: either the coroutine returns
(with its result, whether `sock.close()` ran before the return, and which
error branch logged), or it never completes. -/
inductive ForwardOutcome where
  | returns (result : Option Bytes) (socketClosed : Bool) (log : ForwardLog)
  | hangs
deriving DecidableEq

/-- Whether the code arms any timeout on the awaited upstream socket
operations.  The source sets `sock.setblocking(False)` and then awaits
`loop.sock_connect`, `loop.sock_sendall` and `loop.sock_recv` directly:
no `asyncio.wait_for` wrapper and no `sock.settimeout` call exist, so no
timeout is configured anywhere, despite the comment at dns.py line 135
and the `except TimeoutError` branch at line 147. -/
def forwardTimeoutConfigured : Bool := false

/-- Embedding of `DNSProxyProtocol._forward_request` from src/src/dns.py
lines 119-154.  On a delivered reply: `sock_recv` hands over at most
`recvBufSize` bytes of the datagram, `sock.close()` runs (line 145) and the
bytes are returned.  On a silent upstream: `sock_recv` could only be
interrupted by a `TimeoutError` if a timeout were configured; none is, so
the await never completes.  On a socket exception: the `except Exception`
branch (line 152) logs a transport error and returns `None`; no
`finally` block exists, so `sock.close()` does not run on that path. -/
def forward_request (u : UpstreamBehavior) : ForwardOutcome :=
  match u with
  | UpstreamBehavior.replies resp =>
      ForwardOutcome.returns (some (resp.take recvBufSize)) true ForwardLog.noError
  | UpstreamBehavior.silent =>
      if forwardTimeoutConfigured then
        ForwardOutcome.returns none false ForwardLog.timeoutError
      else
        ForwardOutcome.hangs
  | UpstreamBehavior.connectError =>
      ForwardOutcome.returns none false ForwardLog.transportError
  | UpstreamBehavior.sendError =>
      ForwardOutcome.returns none false ForwardLog.transportError
  | UpstreamBehavior.recvError =>
      ForwardOutcome.returns none false ForwardLog.transportError

/-- Embedding of `DNSProxyProtocol._forward_request` from src/src/main.py
lines 119-154; the body is textually identical to the dns.py one, so the
embedding repeats the same clauses. -/
def forward_request_main (u : UpstreamBehavior) : ForwardOutcome :=
  match u with
  | UpstreamBehavior.replies resp =>
      ForwardOutcome.returns (some (resp.take recvBufSize)) true ForwardLog.noError
  | UpstreamBehavior.silent =>
      if forwardTimeoutConfigured then
        ForwardOutcome.returns none false ForwardLog.timeoutError
      else
        ForwardOutcome.hangs
  | UpstreamBehavior.connectError =>
      ForwardOutcome.returns none false ForwardLog.transportError
  | UpstreamBehavior.sendError =>
      ForwardOutcome.returns none false ForwardLog.transportError
  | UpstreamBehavior.recvError =>
      ForwardOutcome.returns none false ForwardLog.transportError

/-- Whether `sock.close()` ran before the call returned (`false` for a
call that never returns). -/
def ForwardOutcome.closedSocket : ForwardOutcome → Bool
  | ForwardOutcome.returns _ c _ => c
  | ForwardOutcome.hangs => false

/-- Whether the call returned an actual reply payload. -/
def ForwardOutcome.succeeded : ForwardOutcome → Bool
  | ForwardOutcome.returns (some _) _ _ => true
  | ForwardOutcome.returns none _ _ => false
  | ForwardOutcome.hangs => false

/-- Whether the call returned while leaving its socket unclosed. -/
def ForwardOutcome.returnsUnclosed : ForwardOutcome → Bool
  | ForwardOutcome.returns _ false _ => true
  | ForwardOutcome.returns _ true _ => false
  | ForwardOutcome.hangs => false

/-- The payload the call returned, flattening away the outcome shape. -/
def ForwardOutcome.replyData : ForwardOutcome → Option Bytes
  | ForwardOutcome.returns r _ _ => r
  | ForwardOutcome.hangs => none

/-- Embedding of the A-record extraction loop at dns.py lines 97-101:
`for rr in response.rr: if rr.rtype in (QTYPE.A,): ip_addresses.append(str(rr.rdata))`. -/
def extract_a_records : List RR → List String
  | [] => []
  | r :: rest =>
      if r.rtype = qtypeA then r.rdata :: extract_a_records rest
      else extract_a_records rest

/-- Observable events one `_process_dns_query` invocation can perform, in
program order: the request log (line 76), the `_forward_request` call
(line 80), the `transport.sendto` to the client (line 85), the reply log
(line 91), the callback invocation (line 105), the reply-parse-failure
warning (line 110), the no-upstream-response log (line 112), and the
outer-boundary error log (line 117). -/
inductive Event where
  | logRequest (clientIp : String) (qname : String) (qtype : Nat)
  | forward (query : Bytes)
  | send (payload : Bytes) (dest : Addr)
  | logReply (clientIp : String) (qname : String) (answerCount : Nat)
  | callbackCall (qname : String) (ips : List String)
  | logParseReplyFail (qname : String)
  | logNoResponse (qname : String)
  | logHandlerError
deriving DecidableEq

/-- How the body of `_process_dns_query` (the code inside the outer `try`)
finishes: it runs to the end, raises an exception, or suspends forever
inside `_forward_request`. -/
inductive BodyExit where
  | normal
  | raised
  | hangs
deriving DecidableEq

/-- How one handler invocation finishes as seen from outside:
it completes, suspends forever, or lets an exception escape.  The
`escaped` case exists so that the boundary theorem is not vacuous; the
embedding of the handler never produces it. -/
inductive HandlerExit where
  | done
  | hangs
  | escaped
deriving DecidableEq

/-- Outcomes of the external collaborators during one handler invocation:
the result of `DNSRecord.parse(data)` (`none` means it raised), the
upstream behaviour seen by `_forward_request`, whether
`self.transport.sendto` raises, the result of
`DNSRecord.parse(response_data)` (`none` means it raised `DNSError`), and
whether a callback is configured (`process_resolved_ips_callback` is not
`None`) resp. raises a (non-`DNSError`) exception when invoked. -/
structure HandlerEnv where
  parseRequest : Option DNSMessage
  upstream : UpstreamBehavior
  sendtoRaises : Bool
  parseResponse : Option DNSMessage
  callbackConfigured : Bool
  callbackRaises : Bool
deriving DecidableEq

/-- Embedding of the body of `DNSProxyProtocol._process_dns_query` from
src/src/dns.py lines 67-114 (everything inside the outer `try`), as the
list of events it performs and how it exits.  `if response_data:` tests
truthiness, so both `None` and the empty byte string take the `else`
branch (line 111).  The inner `try .. except DNSError` around the reply
parse catches only the decode failure; an exception from `sendto` or from
the callback leaves the body. -/
def process_dns_query_body (env : HandlerEnv) (data : Bytes) (addr : Addr) :
    List Event × BodyExit :=
  match env.parseRequest with
  | none => ([], BodyExit.raised)
  | some req =>
    match forward_request env.upstream with
    | ForwardOutcome.hangs =>
        ([Event.logRequest addr.1 req.qname req.qtype, Event.forward data],
         BodyExit.hangs)
    | ForwardOutcome.returns r _ _ =>
      match r with
      | none =>
          ([Event.logRequest addr.1 req.qname req.qtype, Event.forward data,
            Event.logNoResponse req.qname],
           BodyExit.normal)
      | some respData =>
        if respData.isEmpty then
          ([Event.logRequest addr.1 req.qname req.qtype, Event.forward data,
            Event.logNoResponse req.qname],
           BodyExit.normal)
        else if env.sendtoRaises then
          ([Event.logRequest addr.1 req.qname req.qtype, Event.forward data],
           BodyExit.raised)
        else
          match env.parseResponse with
          | none =>
              ([Event.logRequest addr.1 req.qname req.qtype, Event.forward data,
                Event.send respData addr,
                Event.logParseReplyFail req.qname],
               BodyExit.normal)
          | some resp =>
            let ips := extract_a_records resp.rr
            if !ips.isEmpty && env.callbackConfigured then
              ([Event.logRequest addr.1 req.qname req.qtype, Event.forward data,
                Event.send respData addr,
                Event.logReply addr.1 req.qname resp.rr.length,
                Event.callbackCall req.qname ips],
               if env.callbackRaises then BodyExit.raised else BodyExit.normal)
            else
              ([Event.logRequest addr.1 req.qname req.qtype, Event.forward data,
                Event.send respData addr,
                Event.logReply addr.1 req.qname resp.rr.length],
               BodyExit.normal)

/-- Embedding of `DNSProxyProtocol._process_dns_query` from src/src/dns.py
lines 59-117: the body wrapped in the outer `try .. except Exception`
(line 116), which logs and swallows any exception the body raises. -/
def process_dns_query (env : HandlerEnv) (data : Bytes) (addr : Addr) :
    List Event × HandlerExit :=
  match process_dns_query_body env data addr with
  | (evs, BodyExit.normal) => (evs, HandlerExit.done)
  | (evs, BodyExit.raised) => (evs ++ [Event.logHandlerError], HandlerExit.done)
  | (evs, BodyExit.hangs) => (evs, HandlerExit.hangs)

/-- Embedding of the body of `DNSProxyProtocol._process_dns_query` from
src/src/main.py lines 81-114: identical to the dns.py body except that the
inner `try` only parses the reply and logs the answer count; there is no
A-record extraction and no callback. -/
def main_process_dns_query_body (env : HandlerEnv) (data : Bytes) (addr : Addr) :
    List Event × BodyExit :=
  match env.parseRequest with
  | none => ([], BodyExit.raised)
  | some req =>
    match forward_request_main env.upstream with
    | ForwardOutcome.hangs =>
        ([Event.logRequest addr.1 req.qname req.qtype, Event.forward data],
         BodyExit.hangs)
    | ForwardOutcome.returns r _ _ =>
      match r with
      | none =>
          ([Event.logRequest addr.1 req.qname req.qtype, Event.forward data,
            Event.logNoResponse req.qname],
           BodyExit.normal)
      | some respData =>
        if respData.isEmpty then
          ([Event.logRequest addr.1 req.qname req.qtype, Event.forward data,
            Event.logNoResponse req.qname],
           BodyExit.normal)
        else if env.sendtoRaises then
          ([Event.logRequest addr.1 req.qname req.qtype, Event.forward data],
           BodyExit.raised)
        else
          match env.parseResponse with
          | none =>
              ([Event.logRequest addr.1 req.qname req.qtype, Event.forward data,
                Event.send respData addr,
                Event.logParseReplyFail req.qname],
               BodyExit.normal)
          | some resp =>
              ([Event.logRequest addr.1 req.qname req.qtype, Event.forward data,
                Event.send respData addr,
                Event.logReply addr.1 req.qname resp.rr.length],
               BodyExit.normal)

/-- Embedding of `DNSProxyProtocol._process_dns_query` from
src/src/main.py lines 73-117: the body wrapped in the outer
`try .. except Exception`. -/
def main_process_dns_query (env : HandlerEnv) (data : Bytes) (addr : Addr) :
    List Event × HandlerExit :=
  match main_process_dns_query_body env data addr with
  | (evs, BodyExit.normal) => (evs, HandlerExit.done)
  | (evs, BodyExit.raised) => (evs ++ [Event.logHandlerError], HandlerExit.done)
  | (evs, BodyExit.hangs) => (evs, HandlerExit.hangs)

/-- Whether an event is an invocation of the resolved-address callback. -/
def isCallbackEvent : Event → Bool
  | Event.callbackCall _ _ => true
  | _ => false

/-- Whether an event is a send to a client. -/
def isSendEvent : Event → Bool
  | Event.send _ _ => true
  | _ => false

/-- Scans an event list left to right and checks that every callback
invocation is preceded by at least one client send; the flag records
whether a send has been seen so far. -/
def callbacks_after_send : List Event → Bool → Bool
  | [], _ => true
  | e :: rest, seenSend =>
    if isSendEvent e then callbacks_after_send rest true
    else if isCallbackEvent e then seenSend && callbacks_after_send rest seenSend
    else callbacks_after_send rest seenSend

/-- Events other than the boundary error log occur in the handler trace
exactly when they occur in the body trace: the outer `except Exception`
only appends its own log line. -/
theorem mem_handler_iff_body (env : HandlerEnv) (data : Bytes) (addr : Addr)
    (e : Event) (hne : e ≠ Event.logHandlerError) :
    e ∈ (process_dns_query env data addr).1 ↔
      e ∈ (process_dns_query_body env data addr).1 := by
  rcases hb : process_dns_query_body env data addr with ⟨evs, ex⟩
  cases ex <;> simp [process_dns_query, hb, hne]

/-- Every send event the body performs targets the captured client address
and carries exactly the payload `_forward_request` returned. -/
theorem mem_body_send (env : HandlerEnv) (data : Bytes) (addr : Addr)
    (p : Bytes) (d : Addr)
    (hmem : Event.send p d ∈ (process_dns_query_body env data addr).1) :
    d = addr ∧ (forward_request env.upstream).replyData = some p := by
  rcases henv : env.parseRequest with _ | req
  · simp [process_dns_query_body, henv] at hmem
  · rcases hfo : forward_request env.upstream with ⟨r, c, l⟩ | _
    · rcases r with _ | respData
      · simp [process_dns_query_body, henv, hfo] at hmem
      · cases hemp : respData.isEmpty
        · cases hsr : env.sendtoRaises
          · rcases hpresp : env.parseResponse with _ | resp
            · simp [process_dns_query_body, henv, hfo, hemp, hsr, hpresp] at hmem
              refine ⟨hmem.2, ?_⟩
              simp [ForwardOutcome.replyData, hmem.1]
            · cases hcb : (!(extract_a_records resp.rr).isEmpty &&
                  env.callbackConfigured) <;>
                simp [process_dns_query_body, henv, hfo, hemp, hsr, hpresp, hcb]
                  at hmem <;>
                (refine ⟨hmem.2, ?_⟩;
                 simp [ForwardOutcome.replyData, hmem.1])
          · simp [process_dns_query_body, henv, hfo, hemp, hsr] at hmem
        · simp [process_dns_query_body, henv, hfo, hemp] at hmem
    · simp [process_dns_query_body, henv, hfo] at hmem

/-- Every forward event the body performs carries exactly the inbound
query bytes: the query is relayed unmodified. -/
theorem mem_body_forward (env : HandlerEnv) (data : Bytes) (addr : Addr)
    (b : Bytes)
    (hmem : Event.forward b ∈ (process_dns_query_body env data addr).1) :
    b = data := by
  rcases henv : env.parseRequest with _ | req
  · simp [process_dns_query_body, henv] at hmem
  · rcases hfo : forward_request env.upstream with ⟨r, c, l⟩ | _
    · rcases r with _ | respData
      · simpa [process_dns_query_body, henv, hfo] using hmem
      · cases hemp : respData.isEmpty
        · cases hsr : env.sendtoRaises
          · rcases hpresp : env.parseResponse with _ | resp
            · simpa [process_dns_query_body, henv, hfo, hemp, hsr, hpresp]
                using hmem
            · cases hcb : (!(extract_a_records resp.rr).isEmpty &&
                  env.callbackConfigured) <;>
                simpa [process_dns_query_body, henv, hfo, hemp, hsr, hpresp, hcb]
                  using hmem
          · simpa [process_dns_query_body, henv, hfo, hemp, hsr] using hmem
        · simpa [process_dns_query_body, henv, hfo, hemp] using hmem
    · simpa [process_dns_query_body, henv, hfo] using hmem

/-- When the request parses, `_forward_request` returns a non-empty
payload and `sendto` does not raise, the body sends that payload to the
captured client address. -/
theorem send_mem_body (env : HandlerEnv) (data : Bytes) (addr : Addr)
    (req : DNSMessage) (respData : Bytes)
    (hreq : env.parseRequest = some req)
    (hfo : (forward_request env.upstream).replyData = some respData)
    (hemp : respData.isEmpty = false)
    (hsr : env.sendtoRaises = false) :
    Event.send respData addr ∈ (process_dns_query_body env data addr).1 := by
  rcases hf : forward_request env.upstream with ⟨r, c, l⟩ | _
  · rw [hf] at hfo
    simp only [ForwardOutcome.replyData] at hfo
    subst hfo
    rcases hpresp : env.parseResponse with _ | resp
    · simp [process_dns_query_body, hreq, hf, hemp, hsr, hpresp]
    · cases hcb : (!(extract_a_records resp.rr).isEmpty &&
          env.callbackConfigured) <;>
        simp [process_dns_query_body, hreq, hf, hemp, hsr, hpresp, hcb]
  · rw [hf] at hfo
    simp [ForwardOutcome.replyData] at hfo

/-- C1: the spec requires `_forward_request` to await the upstream reply
under a timeout (default 5 seconds) and to return `None` with a
distinguishable timeout log when the upstream stays silent.  The code
arms no timeout at all: on a silent upstream the `sock_recv` await never
completes, so the call never returns, and the `except TimeoutError`
branch with its distinguishable log is unreachable for every upstream
behaviour. -/
theorem c1_silent_upstream_forward_never_returns :
    forward_request UpstreamBehavior.silent = ForwardOutcome.hangs ∧
    forwardTimeoutConfigured = false ∧
    ∀ (u : UpstreamBehavior) (r : Option Bytes) (c : Bool),
      forward_request u ≠ ForwardOutcome.returns r c ForwardLog.timeoutError := by
  refine ⟨rfl, rfl, ?_⟩
  intro u r c
  cases u <;> simp [forward_request, forwardTimeoutConfigured]

/-- C2 counterexample: when `sock_connect` raises, `_forward_request`
returns `None` from the `except Exception` branch without ever calling
`sock.close()`, so the claim that the socket is closed on every exit
path fails on this input. -/
theorem c2_counterexample_unclosed_socket :
    ¬ (forward_request UpstreamBehavior.connectError).closedSocket = true := by
  decide

/-- C2 amended: `_forward_request` closes its upstream socket before
returning exactly on the success path (a reply payload is returned); on
the timeout and transport-error exit paths the socket is left unclosed,
since the function has no `finally` block. -/
theorem c2_socket_closed_only_on_success :
    ∀ u : UpstreamBehavior,
      (forward_request u).closedSocket = (forward_request u).succeeded := by
  intro u
  cases u <;> rfl

/-- C3: for a well-formed inbound query and a responsive upstream whose
reply fits the receive buffer, the handler sends the upstream payload to
the client byte for byte; moreover every send carries exactly that
payload to exactly the captured address, and every forwarded query
carries exactly the inbound bytes — nothing is altered in transit. -/
theorem c3_byte_for_byte_passthrough
    (env : HandlerEnv) (data : Bytes) (addr : Addr)
    (req : DNSMessage) (resp : Bytes)
    (hreq : env.parseRequest = some req)
    (hup : env.upstream = UpstreamBehavior.replies resp)
    (hne : resp ≠ [])
    (hlen : resp.length ≤ recvBufSize)
    (hsr : env.sendtoRaises = false) :
    Event.send resp addr ∈ (process_dns_query env data addr).1 ∧
    (∀ (p : Bytes) (d : Addr),
      Event.send p d ∈ (process_dns_query env data addr).1 →
        p = resp ∧ d = addr) ∧
    (∀ b : Bytes,
      Event.forward b ∈ (process_dns_query env data addr).1 → b = data) := by
  have htake : resp.take recvBufSize = resp := List.take_of_length_le hlen
  have hfo : (forward_request env.upstream).replyData = some resp := by
    rw [hup]
    simp [forward_request, ForwardOutcome.replyData, htake]
  have hemp : resp.isEmpty = false := by
    rcases resp with _ | ⟨a, as⟩
    · exact absurd rfl hne
    · rfl
  refine ⟨?_, ?_, ?_⟩
  · exact (mem_handler_iff_body env data addr _ (by simp)).2
      (send_mem_body env data addr req resp hreq hfo hemp hsr)
  · intro p d hm
    have hb := (mem_handler_iff_body env data addr _ (by simp)).1 hm
    have h2 := mem_body_send env data addr p d hb
    have hpr : some p = some resp := h2.2.symm.trans hfo
    exact ⟨Option.some_inj.mp hpr, h2.1⟩
  · intro b hm
    have hb := (mem_handler_iff_body env data addr _ (by simp)).1 hm
    exact mem_body_forward env data addr b hb

/-- Witness for C3 at a concrete query, client and upstream reply. -/
theorem c3_witness :
    Event.send [7, 8] ("203.0.113.9", 33333) ∈
      (process_dns_query
        ⟨some ⟨"example.net.", 1, []⟩, UpstreamBehavior.replies [7, 8],
         false, none, false, false⟩
        [1, 2] ("203.0.113.9", 33333)).1 := by
  have h := c3_byte_for_byte_passthrough
    ⟨some ⟨"example.net.", 1, []⟩, UpstreamBehavior.replies [7, 8],
     false, none, false, false⟩
    [1, 2] ("203.0.113.9", 33333) ⟨"example.net.", 1, []⟩ [7, 8]
    rfl rfl (by decide) (by decide) rfl
  exact h.1

/-- C6: every send the handler performs is addressed to the client
address captured when the datagram was received, so answering one query
never sends bytes to a different address, in particular not to the
client address of any concurrently handled query. -/
theorem c6_reply_addressed_to_captured_client
    (env : HandlerEnv) (data : Bytes) (addr : Addr) (p : Bytes) (d : Addr)
    (hmem : Event.send p d ∈ (process_dns_query env data addr).1) :
    d = addr ∧ ∀ other : Addr, other ≠ addr → d ≠ other := by
  have hb := (mem_handler_iff_body env data addr _ (by simp)).1 hmem
  have h := (mem_body_send env data addr p d hb).1
  exact ⟨h, fun other hno hd => hno (hd.symm.trans h)⟩

/-- Witness for C6 at a concrete delivered reply. -/
theorem c6_witness :
    (("198.51.100.20", 40001) : Addr) = ("198.51.100.20", 40001) ∧
    ∀ other : Addr, other ≠ ("198.51.100.20", 40001) →
      (("198.51.100.20", 40001) : Addr) ≠ other :=
  c6_reply_addressed_to_captured_client
    ⟨some ⟨"host.example.", 1, []⟩, UpstreamBehavior.replies [4, 2],
     false, none, false, false⟩
    [9] ("198.51.100.20", 40001) [4, 2] ("198.51.100.20", 40001)
    (by decide)

/-- C5: when `DNSRecord.parse(data)` raises on the inbound payload, the
handler performs only the boundary error log: it never reaches
`_forward_request`, never sends bytes to the client, and terminates
normally. -/
theorem c5_parse_failure_aborts
    (env : HandlerEnv) (data : Bytes) (addr : Addr)
    (hreq : env.parseRequest = none) :
    process_dns_query env data addr = ([Event.logHandlerError], HandlerExit.done) ∧
    (∀ b : Bytes, Event.forward b ∉ (process_dns_query env data addr).1) ∧
    (∀ (p : Bytes) (d : Addr), Event.send p d ∉ (process_dns_query env data addr).1) := by
  have h : process_dns_query env data addr = ([Event.logHandlerError], HandlerExit.done) := by
    simp [process_dns_query, process_dns_query_body, hreq]
  refine ⟨h, ?_, ?_⟩ <;> intro _ <;> simp [h]

/-- Witness for C5 at a concrete malformed payload. -/
theorem c5_witness :
    process_dns_query
        ⟨none, UpstreamBehavior.silent, false, none, false, false⟩
        [255] ("198.51.100.7", 1234) =
      ([Event.logHandlerError], HandlerExit.done) :=
  (c5_parse_failure_aborts
    ⟨none, UpstreamBehavior.silent, false, none, false, false⟩
    [255] ("198.51.100.7", 1234) rfl).1

/-- C4: on a delivered reply that parses, with a configured callback:
when the reply holds at least one A-type record the callback is invoked
exactly once, with the query name and the A-record address strings in
reply order; when the reply holds no A-type record the callback is never
invoked. -/
theorem c4_callback_exactly_once
    (env : HandlerEnv) (data : Bytes) (addr : Addr)
    (req resp : DNSMessage) (rb : Bytes)
    (hreq : env.parseRequest = some req)
    (hup : env.upstream = UpstreamBehavior.replies rb)
    (hrb : rb ≠ [])
    (hsr : env.sendtoRaises = false)
    (hpresp : env.parseResponse = some resp)
    (hcc : env.callbackConfigured = true) :
    (extract_a_records resp.rr ≠ [] →
      (process_dns_query env data addr).1.countP isCallbackEvent = 1 ∧
      Event.callbackCall req.qname (extract_a_records resp.rr) ∈
        (process_dns_query env data addr).1 ∧
      ∀ (q : String) (ips : List String),
        Event.callbackCall q ips ∈ (process_dns_query env data addr).1 →
          q = req.qname ∧ ips = extract_a_records resp.rr) ∧
    (extract_a_records resp.rr = [] →
      (process_dns_query env data addr).1.countP isCallbackEvent = 0) := by
  have hemp : (rb.take recvBufSize).isEmpty = false := by
    rcases rb with _ | ⟨a, as⟩
    · exact absurd rfl hrb
    · rfl
  constructor
  · intro hips
    have hipse : (extract_a_records resp.rr).isEmpty = false := by
      rcases h : extract_a_records resp.rr with _ | _
      · exact absurd h hips
      · rfl
    cases hcr : env.callbackRaises <;>
      refine ⟨?_, ?_, ?_⟩ <;>
      [skip; skip; intro q ips hm; skip; skip; intro q ips hm] <;>
      simp_all [process_dns_query, process_dns_query_body, forward_request,
        hreq, hup, hemp, hsr, hpresp, hcc, hipse, hcr,
        List.countP_cons, isCallbackEvent]
  · intro hips
    have hipse : (extract_a_records resp.rr).isEmpty = true := by
      simp [hips]
    simp_all [process_dns_query, process_dns_query_body, forward_request,
      hreq, hup, hemp, hsr, hpresp, hcc, hipse,
      List.countP_cons, isCallbackEvent]

/-- Witness for C4 at the concrete scenario of the spec: a reply with two
A records triggers exactly one callback with both addresses in order. -/
theorem c4_witness :
    (process_dns_query
        ⟨some ⟨"example.com.", 1, []⟩, UpstreamBehavior.replies [9],
         false,
         some ⟨"example.com.", 1,
           [⟨1, "example.com.", "93.184.216.34"⟩,
            ⟨1, "example.com.", "93.184.216.35"⟩]⟩,
         true, false⟩
        [3] ("192.0.2.9", 5353)).1.countP isCallbackEvent = 1 ∧
    Event.callbackCall "example.com."
        (extract_a_records
          [⟨1, "example.com.", "93.184.216.34"⟩,
           ⟨1, "example.com.", "93.184.216.35"⟩]) ∈
      (process_dns_query
        ⟨some ⟨"example.com.", 1, []⟩, UpstreamBehavior.replies [9],
         false,
         some ⟨"example.com.", 1,
           [⟨1, "example.com.", "93.184.216.34"⟩,
            ⟨1, "example.com.", "93.184.216.35"⟩]⟩,
         true, false⟩
        [3] ("192.0.2.9", 5353)).1 := by
  have h := c4_callback_exactly_once
    ⟨some ⟨"example.com.", 1, []⟩, UpstreamBehavior.replies [9],
     false,
     some ⟨"example.com.", 1,
       [⟨1, "example.com.", "93.184.216.34"⟩,
        ⟨1, "example.com.", "93.184.216.35"⟩]⟩,
     true, false⟩
    [3] ("192.0.2.9", 5353)
    ⟨"example.com.", 1, []⟩
    ⟨"example.com.", 1,
      [⟨1, "example.com.", "93.184.216.34"⟩,
       ⟨1, "example.com.", "93.184.216.35"⟩]⟩
    [9] rfl rfl (by decide) rfl rfl rfl
  exact ⟨(h.1 (by decide)).1, (h.1 (by decide)).2.1⟩

/-- C7: in every handler trace, a callback invocation can only occur
after a send to the client has already been performed: the reply send is
complete before the callback runs, so the callback cannot delay or block
the delivery of the reply. -/
theorem c7_send_completes_before_callback
    (env : HandlerEnv) (data : Bytes) (addr : Addr) :
    callbacks_after_send (process_dns_query env data addr).1 false = true := by
  have hmain :
      callbacks_after_send (process_dns_query_body env data addr).1 false = true ∧
      callbacks_after_send
        ((process_dns_query_body env data addr).1 ++ [Event.logHandlerError])
        false = true := by
    rcases henv : env.parseRequest with _ | req
    · simp [process_dns_query_body, henv, callbacks_after_send,
        isSendEvent, isCallbackEvent]
    · rcases hfo : forward_request env.upstream with ⟨r, c, l⟩ | _
      · rcases r with _ | respData
        · simp [process_dns_query_body, henv, hfo, callbacks_after_send,
            isSendEvent, isCallbackEvent]
        · cases hemp : respData.isEmpty
          · cases hsr : env.sendtoRaises
            · rcases hpresp : env.parseResponse with _ | resp
              · simp [process_dns_query_body, henv, hfo, hemp, hsr, hpresp,
                  callbacks_after_send, isSendEvent, isCallbackEvent]
              · cases hcb : (!(extract_a_records resp.rr).isEmpty &&
                    env.callbackConfigured) <;>
                  simp [process_dns_query_body, henv, hfo, hemp, hsr, hpresp,
                    hcb, callbacks_after_send, isSendEvent, isCallbackEvent]
            · simp [process_dns_query_body, henv, hfo, hemp, hsr,
                callbacks_after_send, isSendEvent, isCallbackEvent]
          · simp [process_dns_query_body, henv, hfo, hemp,
              callbacks_after_send, isSendEvent, isCallbackEvent]
      · simp [process_dns_query_body, henv, hfo, callbacks_after_send,
          isSendEvent, isCallbackEvent]
  rcases hb : process_dns_query_body env data addr with ⟨evs, ex⟩
  rw [hb] at hmain
  cases ex
  · simpa [process_dns_query, hb] using hmain.1
  · simpa [process_dns_query, hb] using hmain.2
  · simpa [process_dns_query, hb] using hmain.1

/-- C8: the outer boundary of the handler never lets an exception
escape: whatever the collaborators do, the invocation never exits as
`escaped`, and whenever the body raises, the handler appends exactly the
boundary error log and completes normally. -/
theorem c8_handler_swallows_exceptions
    (env : HandlerEnv) (data : Bytes) (addr : Addr) :
    (process_dns_query env data addr).2 ≠ HandlerExit.escaped ∧
    ((process_dns_query_body env data addr).2 = BodyExit.raised →
      (process_dns_query env data addr).1 =
        (process_dns_query_body env data addr).1 ++ [Event.logHandlerError] ∧
      (process_dns_query env data addr).2 = HandlerExit.done) := by
  rcases hb : process_dns_query_body env data addr with ⟨evs, ex⟩
  cases ex <;> simp [process_dns_query, hb]

/-- Witness for C8 at a concrete raising invocation: a malformed inbound
payload raises in the body; the handler logs and completes. -/
theorem c8_witness :
    (process_dns_query
        ⟨none, UpstreamBehavior.silent, false, none, false, false⟩
        [2] ("192.0.2.1", 999)).2 ≠ HandlerExit.escaped ∧
    (process_dns_query
        ⟨none, UpstreamBehavior.silent, false, none, false, false⟩
        [2] ("192.0.2.1", 999)).1 =
      (process_dns_query_body
        ⟨none, UpstreamBehavior.silent, false, none, false, false⟩
        [2] ("192.0.2.1", 999)).1 ++ [Event.logHandlerError] := by
  have h := c8_handler_swallows_exceptions
    ⟨none, UpstreamBehavior.silent, false, none, false, false⟩
    [2] ("192.0.2.1", 999)
  exact ⟨h.1, (h.2 (by decide)).1⟩

/-- C10: the two snapshots are behaviourally equivalent when no callback
is configured: the two `_forward_request` embeddings agree on every
upstream behaviour, and for every environment without a configured
callback the two handlers produce identical traces and exits. -/
theorem c10_snapshots_equivalent_without_callback :
    (∀ u : UpstreamBehavior, forward_request_main u = forward_request u) ∧
    ∀ (env : HandlerEnv) (data : Bytes) (addr : Addr),
      env.callbackConfigured = false →
        main_process_dns_query env data addr = process_dns_query env data addr := by
  have hf : ∀ u : UpstreamBehavior, forward_request_main u = forward_request u := by
    intro u
    cases u <;> rfl
  refine ⟨hf, ?_⟩
  intro env data addr hcc
  have hbody : main_process_dns_query_body env data addr =
      process_dns_query_body env data addr := by
    rcases henv : env.parseRequest with _ | req
    · simp [main_process_dns_query_body, process_dns_query_body, henv]
    · rcases hfo : forward_request env.upstream with ⟨r, c, l⟩ | _
      · rcases r with _ | respData
        · simp [main_process_dns_query_body, process_dns_query_body,
            henv, hf, hfo]
        · cases hemp : respData.isEmpty
          · cases hsr : env.sendtoRaises
            · rcases hpresp : env.parseResponse with _ | resp
              · simp [main_process_dns_query_body, process_dns_query_body,
                  henv, hf, hfo, hemp, hsr, hpresp]
              · simp [main_process_dns_query_body, process_dns_query_body,
                  henv, hf, hfo, hemp, hsr, hpresp, hcc]
            · simp [main_process_dns_query_body, process_dns_query_body,
                henv, hf, hfo, hemp, hsr]
          · simp [main_process_dns_query_body, process_dns_query_body,
              henv, hf, hfo, hemp]
      · simp [main_process_dns_query_body, process_dns_query_body,
          henv, hf, hfo]
  simp [main_process_dns_query, process_dns_query, hbody]

/-- Witness for C10 at a concrete upstream behaviour and a concrete
callback-free environment. -/
theorem c10_witness :
    forward_request_main UpstreamBehavior.recvError =
      forward_request UpstreamBehavior.recvError ∧
    main_process_dns_query
        ⟨some ⟨"a.example.", 1, []⟩, UpstreamBehavior.replies [9, 9],
         false, some ⟨"a.example.", 1, []⟩, false, false⟩
        [5] ("198.51.100.2", 1053) =
      process_dns_query
        ⟨some ⟨"a.example.", 1, []⟩, UpstreamBehavior.replies [9, 9],
         false, some ⟨"a.example.", 1, []⟩, false, false⟩
        [5] ("198.51.100.2", 1053) := by
  have h := c10_snapshots_equivalent_without_callback
  exact ⟨h.1 UpstreamBehavior.recvError,
    h.2 ⟨some ⟨"a.example.", 1, []⟩, UpstreamBehavior.replies [9, 9],
      false, some ⟨"a.example.", 1, []⟩, false, false⟩
      [5] ("198.51.100.2", 1053) rfl⟩

/-- C9: an empty reply datagram from the upstream is falsy in
`if response_data:`, so the handler takes the no-response branch: it
logs that no upstream response was obtained and sends nothing to the
client, exactly as if `_forward_request` had returned `None`. -/
theorem c9_empty_reply_treated_as_no_response
    (env : HandlerEnv) (data : Bytes) (addr : Addr) (req : DNSMessage)
    (hreq : env.parseRequest = some req)
    (hup : env.upstream = UpstreamBehavior.replies []) :
    process_dns_query env data addr =
      ([Event.logRequest addr.1 req.qname req.qtype, Event.forward data,
        Event.logNoResponse req.qname], HandlerExit.done) := by
  simp [process_dns_query, process_dns_query_body, hreq, hup, forward_request]

/-- Witness for C9 at a concrete query and an empty upstream reply. -/
theorem c9_witness :
    process_dns_query
        ⟨some ⟨"example.com.", 1, []⟩, UpstreamBehavior.replies [], false, none, true, false⟩
        [0, 1] ("203.0.113.5", 40000) =
      ([Event.logRequest "203.0.113.5" "example.com." 1, Event.forward [0, 1],
        Event.logNoResponse "example.com."], HandlerExit.done) :=
  c9_empty_reply_treated_as_no_response
    ⟨some ⟨"example.com.", 1, []⟩, UpstreamBehavior.replies [], false, none, true, false⟩
    [0, 1] ("203.0.113.5", 40000) ⟨"example.com.", 1, []⟩ rfl rfl

end DnsProxy
